import Mathlib

/-
  Verification development for the devops CRM (Django app under
  src/Desktop/devops/devops/owners/): a shallow embedding of the data model
  (models.py), the view functions (views.py) and the report form (forms.py),
  together with theorems settling the specification claims.

  Conventions of the embedding:
  * primary keys are `Nat`; a `DB` holds the four entity tables as lists;
  * `DateField` values are day numbers (days since 1970-01-01, as in Python's
    `date.toordinal` up to an offset); `DateTimeField` values are minutes since
    1970-01-01 00:00, so that Django's coercion of a `date` to the midnight
    `datetime` in `created_at__gte/__lte` lookups is `day * 1440`;
  * Django ORM filters become `List.filter`, `count()` becomes `List.length` /
    `List.countP`, `get_object_or_404` becomes `Option`-returning lookup;
  * a ManyToMany relation is the list of related ids (Django M2M relations hold
    no duplicates; `add` appends when absent, `remove` drops the id).
-/

namespace Devops

/-! ## Calendar arithmetic

Python's `datetime.date` semantics used by the views: calendar year / month /
day extraction and the ISO week number (`date.isocalendar()[1]`, which is also
what Django's `created_at__week` lookup computes).  Day numbers count days
since 1970-01-01.  The civil-calendar conversions are the standard
era/day-of-era algorithms. -/

/-- Calendar (year, month, day) of a day number (days since 1970-01-01). -/
def civilOfDay (z : Nat) : Nat × Nat × Nat :=
  let z' := z + 719468
  let era := z' / 146097
  let doe := z' % 146097
  let yoe := (doe - doe / 1460 + doe / 36524 - doe / 146097) / 365
  let y := yoe + era * 400
  let doy := doe - (365 * yoe + yoe / 4 - yoe / 100)
  let mp := (5 * doy + 2) / 153
  let dd := doy - (153 * mp + 2) / 5 + 1
  let m := if mp < 10 then mp + 3 else mp - 9
  if m ≤ 2 then (y + 1, m, dd) else (y, m, dd)

/-- Calendar year of a day number (`date.year`, Django `__year`). -/
def civilYear (z : Nat) : Nat := (civilOfDay z).1

/-- Calendar month of a day number (`date.month`, Django `__month`). -/
def civilMonth (z : Nat) : Nat := (civilOfDay z).2.1

/-- Day of month of a day number (`date.day`). -/
def civilDay (z : Nat) : Nat := (civilOfDay z).2.2

/-- Day number of January 1st of year `y` (for `y ≥ 1970`). -/
def dayOfJan1 (y : Nat) : Nat :=
  let y' := y - 1
  let era := y' / 400
  let yoe := y' % 400
  let doe := yoe * 365 + yoe / 4 - yoe / 100 + 306
  era * 146097 + doe - 719468

/-- ISO weekday of a day number, Monday = 1 .. Sunday = 7
(1970-01-01 was a Thursday). -/
def isoWeekday (z : Nat) : Nat := (z + 3) % 7 + 1

/-- Whether ISO year `y` has 53 weeks. -/
def isoLongYear (y : Nat) : Bool :=
  ((y + y / 4 - y / 100 + y / 400) % 7 == 4) ||
  (((y - 1) + (y - 1) / 4 - (y - 1) / 100 + (y - 1) / 400) % 7 == 3)

/-- Number of ISO weeks in year `y` (52 or 53). -/
def isoWeeksInYear (y : Nat) : Nat := if isoLongYear y then 53 else 52

/-- ISO week number of a day number (`date.isocalendar()[1]`,
Django `__week`). -/
def isoWeek (z : Nat) : Nat :=
  let y := civilYear z
  let ord := z - dayOfJan1 y + 1
  let wd := isoWeekday z
  let w := (ord + 10 - wd) / 7
  if w = 0 then isoWeeksInYear (y - 1)
  else if w > isoWeeksInYear y then 1
  else w

/-! ## Entity store (owners/models.py)

`Owner`, `Office`, `Employee`, `Report` with the fields the claims touch.
`Office.owners` is the new ManyToMany relation, `Office.primaryOwner` the new
primary-owner foreign key, `Office.legacyOwner` the deprecated single-owner
foreign key `Office.owner` that the views still use. -/

structure Owner where
  id : Nat
  userId : Nat
  lastContacted : Option Nat
deriving DecidableEq

structure Office where
  id : Nat
  owners : List Nat
  primaryOwner : Option Nat
  legacyOwner : Option Nat
  lastContacted : Option Nat
deriving DecidableEq

structure Employee where
  id : Nat
  officeId : Nat
  legacyOwner : Option Nat
deriving DecidableEq

/-- The five fixed `calltype` codes of `Report.calltype_choices`. -/
inductive CallType
  | phone
  | email
  | fov
  | teams
  | other
deriving DecidableEq

/-- The `calltype_choices` list, in source order. -/
def allCallTypes : List CallType :=
  [CallType.phone, CallType.email, CallType.fov, CallType.teams, CallType.other]

structure Report where
  id : Nat
  content : String
  createdAt : Nat
  employeeId : Option Nat
  officeId : Option Nat
  primaryOwner : Option Nat
  legacyOwner : Option Nat
  authorId : Nat
  calltype : CallType
  vibe : Nat
deriving DecidableEq

structure DB where
  owners : List Owner
  offices : List Office
  employees : List Employee
  reports : List Report
deriving DecidableEq

/-- `Owner.objects.get(pk=i)` (primary keys are unique in the store). -/
def findOwner (db : DB) (i : Nat) : Option Owner :=
  db.owners.find? (fun o => decide (o.id = i))

/-- `Office.objects.get(pk=i)`. -/
def findOffice (db : DB) (i : Nat) : Option Office :=
  db.offices.find? (fun o => decide (o.id = i))

/-- `Employee.objects.get(pk=i)`. -/
def findEmployee (db : DB) (i : Nat) : Option Employee :=
  db.employees.find? (fun e => decide (e.id = i))

/-- `Report.objects.get(pk=i)`. -/
def findReport (db : DB) (i : Nat) : Option Report :=
  db.reports.find? (fun r => decide (r.id = i))

/-! ## Office model methods (models.py, Office) -/

/-- `Office.is_owner(owner_obj)`: membership in the `owners` M2M when it is
non-empty, otherwise fallback to the deprecated single-owner field. -/
def Office.isOwner (ofc : Office) (oid : Nat) : Bool :=
  if ofc.owners.isEmpty then
    match ofc.legacyOwner with
    | some l => l == oid
    | none => false
  else ofc.owners.contains oid

/-- `Office.get_primary_owner()`: `self.primary_owner or self.owner`. -/
def Office.getPrimaryOwner (ofc : Office) : Option Nat :=
  match ofc.primaryOwner with
  | some p => some p
  | none => ofc.legacyOwner

/-- `Office.add_owner(owner_obj, set_as_primary)`: add to the M2M (no-op when
already present), and set as primary when requested or when no primary owner
exists. -/
def Office.addOwner (ofc : Office) (oid : Nat) (setPrimary : Bool) : Office :=
  let owners' := if ofc.owners.contains oid then ofc.owners else ofc.owners ++ [oid]
  if setPrimary || decide (ofc.primaryOwner = none) then
    { ofc with owners := owners', primaryOwner := some oid }
  else
    { ofc with owners := owners' }

/-- `Office.remove_owner(owner_obj)`: when `is_owner`, remove from the M2M and,
if the removed owner was primary, reassign primary to the first remaining owner
or clear it when none remain; otherwise do nothing.  The method raises no
exception on any path. -/
def Office.removeOwner (ofc : Office) (oid : Nat) : Office :=
  if ofc.isOwner oid then
    let owners' := ofc.owners.filter (fun x => x != oid)
    if ofc.primaryOwner = some oid then
      match owners' with
      | [] => { ofc with owners := owners', primaryOwner := none }
      | p :: _ => { ofc with owners := owners', primaryOwner := some p }
    else { ofc with owners := owners' }
  else ofc

/-- Error channel for `remove_owner`: the claimed `NotAnOwner` failure. -/
inductive RemoveOwnerError
  | notAnOwner
deriving DecidableEq

/-- `Office.remove_owner` embedded with an explicit error channel: a `raise`
in the Python method would map to `Except.error`.  The source method has no
raise statement on any path, so the result is always `Except.ok` of the
(possibly unchanged) office; the wrapper makes the claimed `NotAnOwner`
failure statable. -/
def Office.removeOwnerE (ofc : Office) (oid : Nat) : Except RemoveOwnerError Office :=
  Except.ok (ofc.removeOwner oid)

/-- The §3/§8 Office invariant, as a decidable check: if `owners` is
non-empty then `primary_owner` is a member of `owners`. -/
def officeInvariantB (ofc : Office) : Bool :=
  ofc.owners.isEmpty ||
    (match ofc.primaryOwner with
     | some p => ofc.owners.contains p
     | none => false)

/-! ## owner_edit view, office-association removal step (views.py 308-316)

For each office currently associated with the edited owner but not selected in
the form, `owner_edit` runs `office.owners.remove(updated_owner)` and, when
that owner was the office's primary owner, sets `office.primary_owner = None`
regardless of how many owners remain. -/

/-- One removal step of `owner_edit` on one deselected office. -/
def ownerEditRemoveAssoc (ofc : Office) (ownerId : Nat) : Office :=
  { ofc with
    owners := ofc.owners.filter (fun x => x != ownerId),
    primaryOwner := if ofc.primaryOwner = some ownerId then none else ofc.primaryOwner }

/-- `office_create` (views.py 379-391): build the office with
`primary_owner = owner`, legacy `owner = owner`, then `owners.add(owner)`. -/
def officeCreate (oid ownerId : Nat) : Office :=
  { id := oid, owners := [ownerId], primaryOwner := some ownerId,
    legacyOwner := some ownerId, lastContacted := none }

/-! ## Access scoping

The requester's entity scope, as the views compute it (views.py `home` and
the `office_accessible` checks):
owner scope = `Owner.objects.filter(user=request.user)`;
office scope = `Q(owners__in=owners) | Q(primary_owner__in=owners) |
Q(owner__in=owners)`;
report scope = reports whose primary owner or legacy owner is in the owner
scope, or whose linked employee's office is in the office scope. -/

/-- `Owner.objects.filter(user=request.user)`. -/
def userOwners (db : DB) (u : Nat) : List Owner :=
  db.owners.filter (fun o => decide (o.userId = u))

/-- Whether owner id `p` denotes an owner of user `u`. -/
def ownerOfUser (db : DB) (u p : Nat) : Bool :=
  match findOwner db p with
  | some o => decide (o.userId = u)
  | none => false

/-- Whether an office is in user `u`'s office scope:
`Q(owners__in=user_owners) | Q(primary_owner__in=user_owners) |
Q(owner__in=user_owners)`. -/
def officeInScopeB (db : DB) (u : Nat) (ofc : Office) : Bool :=
  ofc.owners.any (fun oid => ownerOfUser db u oid) ||
  (match ofc.primaryOwner with
   | some p => ownerOfUser db u p
   | none => false) ||
  (match ofc.legacyOwner with
   | some p => ownerOfUser db u p
   | none => false)

/-- Whether an employee's office is in user `u`'s office scope. -/
def employeeInScopeB (db : DB) (u : Nat) (emp : Employee) : Bool :=
  match findOffice db emp.officeId with
  | some ofc => officeInScopeB db u ofc
  | none => false

/-- The claim's report scope: the report's `primary_owner` (or legacy
single-owner field) belongs to one of the requester's owners, or the linked
employee's office is in the requester's office scope. -/
def reportInScopeB (db : DB) (u : Nat) (r : Report) : Bool :=
  (match r.primaryOwner with
   | some p => ownerOfUser db u p
   | none => false) ||
  (match r.legacyOwner with
   | some p => ownerOfUser db u p
   | none => false) ||
  (match r.employeeId with
   | some e =>
     match findEmployee db e with
     | some emp => employeeInScopeB db u emp
     | none => false
   | none => false)

/-! ## Detail and delete views (views.py) -/

/-- `report_dashboard` (views.py 724-728): `get_object_or_404(Report,
pk=report_id)` and render it.  There is no filter on the requesting user. -/
def reportDashboard (db : DB) (reportId : Nat) : Option Report :=
  findReport db reportId

/-- `employee_delete` (views.py 609-614): look the employee up by pk, delete
it (cascading to its reports through the `Report.employee` CASCADE foreign
key), and redirect to its office's dashboard.  There is no scope check and no
request-method check.  Returns the new store and the office id of the
redirect target. -/
def employeeDelete (db : DB) (employeeId : Nat) : Option (DB × Nat) :=
  match findEmployee db employeeId with
  | none => none
  | some emp =>
    some ({ db with
            employees := db.employees.filter (fun e => e.id != employeeId),
            reports := db.reports.filter (fun r => r.employeeId != some employeeId) },
          emp.officeId)

/-- `office_delete` (views.py 351-356), POST branch: look the office up by pk
and delete it, cascading to its employees (`Employee.office` CASCADE) and to
reports linked to the office or to a deleted employee (`Report.office` and
`Report.employee` CASCADE).  There is no scope check. -/
def officeDelete (db : DB) (officeId : Nat) : Option DB :=
  match findOffice db officeId with
  | none => none
  | some _ =>
    let deadEmployees := (db.employees.filter (fun e => e.officeId == officeId)).map (fun e => e.id)
    some { db with
           offices := db.offices.filter (fun o => o.id != officeId),
           employees := db.employees.filter (fun e => e.officeId != officeId),
           reports := db.reports.filter (fun r =>
             r.officeId != some officeId &&
             !(deadEmployees.any (fun e => r.employeeId == some e))) }

/-! ## ReportForm (forms.py 144-253) -/

/-- The validated field values of a `ReportForm` submission. -/
structure FormData where
  callDate : Option Nat
  content : String
  vibe : Nat
  calltype : CallType
  office : Option Nat
  additionalParties : String
deriving DecidableEq

/-- English month name, for `strftime('%B ...')`. -/
def monthName (m : Nat) : String :=
  match m with
  | 1 => "January"
  | 2 => "February"
  | 3 => "March"
  | 4 => "April"
  | 5 => "May"
  | 6 => "June"
  | 7 => "July"
  | 8 => "August"
  | 9 => "September"
  | 10 => "October"
  | 11 => "November"
  | 12 => "December"
  | _ => ""

/-- Zero-padded two-digit day, for `strftime('%d')`. -/
def pad2 (n : Nat) : String :=
  if n < 10 then "0" ++ toString n else toString n

/-- `call_date.strftime('%B %d, %Y')`. -/
def strftimeBdY (z : Nat) : String :=
  monthName (civilMonth z) ++ " " ++ pad2 (civilDay z) ++ ", " ++ toString (civilYear z)

/-- The `"CALL DATE: ..."` header block prepended by `ReportForm.save`:
`f"CALL DATE: {date}\n" + "="*40 + "\n\n"`. -/
def callDateHeader (z : Nat) : String :=
  "CALL DATE: " ++ strftimeBdY z ++ "\n" ++ String.mk (List.replicate 40 '=') ++ "\n\n"

/-- The separator + section title appended before the additional-parties text:
`"\n\n" + "="*50 + "\nADDITIONAL PARTIES INVOLVED:\n" + "="*50 + "\n"`. -/
def partiesSeparator : String :=
  "\n\n" ++ String.mk (List.replicate 50 '=') ++ "\nADDITIONAL PARTIES INVOLVED:\n" ++
    String.mk (List.replicate 50 '=') ++ "\n"

/-- The content-rewriting core of `ReportForm.save` (forms.py 231-253): when
a call date is present, prepend the date header; when the additional-parties
text is non-empty and non-blank after stripping, append the separator and the
stripped text.  (Python's `str.strip()` is modelled by `String.trim`.) -/
def reportFormSaveContent (content : String) (callDate : Option Nat)
    (additionalParties : String) : String :=
  let c1 := match callDate with
            | some z => callDateHeader z ++ content
            | none => content
  if additionalParties ≠ "" ∧ additionalParties.trim ≠ "" then
    c1 ++ partiesSeparator ++ additionalParties.trim
  else c1

/-- `ReportForm` base field validation: `content` is a required `TextField`,
`vibe` carries `MinValueValidator(1)` / `MaxValueValidator(10)`; `calltype`
membership in the five codes is enforced by the `CallType` type. -/
def formValidBase (fd : FormData) : Bool :=
  decide (fd.content ≠ "") && decide (1 ≤ fd.vibe) && decide (fd.vibe ≤ 10)

/-- Validation of the `office` model-choice field when the form was built with
an `owner` kwarg (forms.py 211-214): the queryset is
`Office.objects.filter(owner=owner)` (the deprecated single-owner field), and
a submitted office pk is valid exactly when it is in that queryset. -/
def officeInOwnerQueryset (db : DB) (ownerId oid : Nat) : Bool :=
  match findOffice db oid with
  | some o => decide (o.legacyOwner = some ownerId)
  | none => false

/-! ## Report persistence and the log-call views (views.py 616-722) -/

/-- `Report.save()` (models.py 452-461): when neither `primary_owner` nor the
legacy `owner` is set, infer `primary_owner` from the linked employee's office
or from the linked office; then insert the report into the store. -/
def persistReport (db : DB) (r : Report) : DB × Report :=
  let r' :=
    if r.primaryOwner = none ∧ r.legacyOwner = none then
      match r.employeeId with
      | some e =>
        (match findEmployee db e with
         | some emp =>
           (match findOffice db emp.officeId with
            | some ofc => { r with primaryOwner := ofc.getPrimaryOwner }
            | none => r)
         | none => r)
      | none =>
        (match r.officeId with
         | some oid =>
           (match findOffice db oid with
            | some ofc => { r with primaryOwner := ofc.getPrimaryOwner }
            | none => r)
         | none => r)
    else r
  ({ db with reports := r' :: db.reports }, r')

/-- `office.last_contacted = date.today(); office.save()`. -/
def touchOffice (db : DB) (oid today : Nat) : DB :=
  { db with offices := db.offices.map (fun o =>
      if o.id = oid then { o with lastContacted := some today } else o) }

/-- `owner.last_contacted = date.today(); owner.save()`. -/
def touchOwner (db : DB) (a today : Nat) : DB :=
  { db with owners := db.owners.map (fun o =>
      if o.id = a then { o with lastContacted := some today } else o) }

/-- The `last_contacted` value of owner `a` as stored. -/
def ownerLastContacted (db : DB) (a : Nat) : Option Nat :=
  match findOwner db a with
  | some o => o.lastContacted
  | none => none

/-- The `last_contacted` value of office `oid` as stored. -/
def officeLastContacted (db : DB) (oid : Nat) : Option Nat :=
  match findOffice db oid with
  | some o => o.lastContacted
  | none => none

/-- Outcome of a log-call POST: pk lookup failed (404), form invalid (the
workflow returns to the Draft form, nothing is written), or committed with
the new store and the persisted report. -/
inductive LogOutcome
  | notFound
  | draft
  | committed (db : DB) (r : Report)
deriving DecidableEq

/-- The store after a committed outcome, `none` otherwise. -/
def outcomeDb (o : LogOutcome) : Option DB :=
  match o with
  | LogOutcome.committed db _ => some db
  | _ => none

/-- The persisted report of a committed outcome, `none` otherwise. -/
def outcomeReport (o : LogOutcome) : Option Report :=
  match o with
  | LogOutcome.committed _ r => some r
  | _ => none

/-- A fresh primary key for a new report. -/
def nextReportId (db : DB) : Nat := db.reports.length + 1

/-- `log_call_from_employee` (views.py 616-638), POST branch: the form is
built without an `owner` kwarg, so its office queryset is empty and a
submitted office value is invalid; on a valid form the view sets
`report.employee = employee`, `report.owner = employee.owner` (the deprecated
single-owner field), `report.office = employee.office`, saves, then sets
`last_contacted = today` on `report.office` (always linked here) and on
`report.owner` when it is not `None`. -/
def logCallFromEmployee (db : DB) (u eid : Nat) (fd : FormData) (today : Nat) :
    LogOutcome :=
  match findEmployee db eid with
  | none => LogOutcome.notFound
  | some emp =>
    if formValidBase fd && fd.office.isNone then
      let content := reportFormSaveContent fd.content fd.callDate fd.additionalParties
      let r : Report :=
        { id := nextReportId db, content := content, createdAt := today * 1440,
          employeeId := some eid, officeId := some emp.officeId,
          primaryOwner := none, legacyOwner := emp.legacyOwner,
          authorId := u, calltype := fd.calltype, vibe := fd.vibe }
      let p := persistReport db r
      let db2 := touchOffice p.1 emp.officeId today
      let db3 := match emp.legacyOwner with
                 | some a => touchOwner db2 a today
                 | none => db2
      LogOutcome.committed db3 p.2
    else LogOutcome.draft

/-- `log_call_from_office` (views.py 640-661), POST branch: on a valid form
the view sets `report.owner = office.owner` (the deprecated single-owner
field, not `office.primary_owner`), `report.office = office`, saves, then
sets `last_contacted = today` on the office and on `report.owner` when it is
not `None`. -/
def logCallFromOffice (db : DB) (u officeId : Nat) (fd : FormData) (today : Nat) :
    LogOutcome :=
  match findOffice db officeId with
  | none => LogOutcome.notFound
  | some office =>
    if formValidBase fd && fd.office.isNone then
      let content := reportFormSaveContent fd.content fd.callDate fd.additionalParties
      let r : Report :=
        { id := nextReportId db, content := content, createdAt := today * 1440,
          employeeId := none, officeId := some officeId,
          primaryOwner := none, legacyOwner := office.legacyOwner,
          authorId := u, calltype := fd.calltype, vibe := fd.vibe }
      let p := persistReport db r
      let db2 := touchOffice p.1 officeId today
      let db3 := match office.legacyOwner with
                 | some a => touchOwner db2 a today
                 | none => db2
      LogOutcome.committed db3 p.2
    else LogOutcome.draft

/-- `log_call_from_owner` (views.py 664-722), POST branch: the form is built
with the `owner` kwarg, so the office field's queryset is
`Office.objects.filter(owner=owner)` and a submitted office outside it makes
the form invalid (Draft).  On a valid form the view sets
`report.owner = owner`, clears `report.office` when its legacy `owner_id`
differs from the owner (unreachable after validation), saves, then sets
`last_contacted = today` on `report.office` when present and on the owner. -/
def logCallFromOwner (db : DB) (u ownerId : Nat) (fd : FormData) (today : Nat) :
    LogOutcome :=
  match findOwner db ownerId with
  | none => LogOutcome.notFound
  | some _ =>
    let officeOk := match fd.office with
                    | none => true
                    | some oid => officeInOwnerQueryset db ownerId oid
    if formValidBase fd && officeOk then
      let officeSel := match fd.office with
                       | none => none
                       | some oid =>
                         match findOffice db oid with
                         | some o => if o.legacyOwner = some ownerId then some oid else none
                         | none => none
      let content := reportFormSaveContent fd.content fd.callDate fd.additionalParties
      let r : Report :=
        { id := nextReportId db, content := content, createdAt := today * 1440,
          employeeId := none, officeId := officeSel,
          primaryOwner := none, legacyOwner := some ownerId,
          authorId := u, calltype := fd.calltype, vibe := fd.vibe }
      let p := persistReport db r
      let db2 := match p.2.officeId with
                 | some oid => touchOffice p.1 oid today
                 | none => p.1
      let db3 := touchOwner db2 ownerId today
      LogOutcome.committed db3 p.2
    else LogOutcome.draft

/-! ## activity_dashboard (views.py 730-832)

`reports = Report.objects.filter(author=user)`, optionally restricted by
`created_at__gte=start_date` / `created_at__lte=end_date` (Django coerces the
`date` bound to the midnight `datetime`, i.e. `day * 1440` minutes); the
owner × calltype matrix is keyed by the reports' deprecated single-owner
field `owner__id`; the totals iterate only the requesting user's owners, so
aggregation rows for other owner ids (which the code `setdefault`s into the
matrix dict) contribute to no total. -/

/-- The filtered report set of `activity_dashboard`. -/
def activityReports (db : DB) (u : Nat) (sd ed : Option Nat) : List Report :=
  let base := db.reports.filter (fun r => decide (r.authorId = u))
  let afterStart := match sd with
                    | some s => base.filter (fun r => decide (s * 1440 ≤ r.createdAt))
                    | none => base
  match ed with
  | some e => afterStart.filter (fun r => decide (r.createdAt ≤ e * 1440))
  | none => afterStart

/-- `show_table`: the matrix is displayed only when at least one bound was
supplied (views.py 768-774). -/
def activityShowTable (sd ed : Option Nat) : Bool :=
  if sd.isSome || ed.isSome then true else false

/-- One matrix cell: the aggregated `Count('id')` of reports with the given
legacy `owner__id` and `calltype`. -/
def matrixCell (rs : List Report) (oid : Nat) (ct : CallType) : Nat :=
  rs.countP (fun r => decide (r.legacyOwner = some oid) && decide (r.calltype = ct))

/-- One matrix row: the five cells of an owner, in `calltype_choices` order. -/
def matrixRow (rs : List Report) (oid : Nat) : List Nat :=
  allCallTypes.map (fun ct => matrixCell rs oid ct)

/-- The activity matrix rows for the requesting user's owners (the totals
iterate exactly these rows). -/
def activityMatrix (db : DB) (u : Nat) (sd ed : Option Nat) : List (Nat × List Nat) :=
  (userOwners db u).map (fun o => (o.id, matrixRow (activityReports db u sd ed) o.id))

/-- `row_total = sum(matrix[oid].values())`. -/
def rowTotal (rs : List Report) (oid : Nat) : Nat :=
  (matrixRow rs oid).sum

/-- `grand_total`: accumulated as the sum of the row totals over the user's
owners. -/
def grandTotal (db : DB) (u : Nat) (sd ed : Option Nat) : Nat :=
  ((userOwners db u).map (fun o => rowTotal (activityReports db u sd ed) o.id)).sum

/-- `totals_by_calltype[ct]`: accumulated over the user's owners. -/
def colTotal (rs : List Report) (os : List Owner) (ct : CallType) : Nat :=
  (os.map (fun o => matrixCell rs o.id ct)).sum

/-! ## home view time windows (views.py 49-115)

`reports_qs` is the scoped report set; the counts below are the view's count
variables, named as in the source.  `created_at__date` / `__week` / `__month`
/ `__year` extract the calendar date, ISO week, month and year of the stored
timestamp; the rolling windows compare the timestamp against the midnight of
`current_date - timedelta(days=N)`. -/

/-- The calendar day of a report's `created_at` timestamp. -/
def createdDay (r : Report) : Nat := r.createdAt / 1440

/-- `today_reports.count()`: `created_at__date=current_date`. -/
def todayReportsCount (d : Nat) (rs : List Report) : Nat :=
  (rs.filter (fun r => decide (createdDay r = d))).length

/-- `this_week_number_reports.count()`:
`created_at__week=current ISO week, created_at__year=current year`. -/
def thisWeekNumberReportsCount (d : Nat) (rs : List Report) : Nat :=
  (rs.filter (fun r =>
    decide (isoWeek (createdDay r) = isoWeek d) &&
    decide (civilYear (createdDay r) = civilYear d))).length

/-- `last_week_number_reports.count()`:
`created_at__week=(current_date - 7 days).isocalendar()[1],
created_at__year=current year`. -/
def lastWeekNumberReportsCount (d : Nat) (rs : List Report) : Nat :=
  (rs.filter (fun r =>
    decide (isoWeek (createdDay r) = isoWeek (d - 7)) &&
    decide (civilYear (createdDay r) = civilYear d))).length

/-- `last_month_reports.count()` (context key
`last_month_number_reports_count`): `created_at__month=current_date.month,
created_at__year=current_date.year` — the CURRENT calendar month. -/
def lastMonthNumberReportsCount (d : Nat) (rs : List Report) : Nat :=
  (rs.filter (fun r =>
    decide (civilMonth (createdDay r) = civilMonth d) &&
    decide (civilYear (createdDay r) = civilYear d))).length

/-- `weekly_reports.count()`: `created_at__gte=current_date - 7 days`
(rolling). -/
def weeklyReportsCount (d : Nat) (rs : List Report) : Nat :=
  (rs.filter (fun r => decide ((d - 7) * 1440 ≤ r.createdAt))).length

/-- `monthly_reports.count()`: `created_at__gte=current_date - 30 days`
(rolling). -/
def monthlyReportsCount (d : Nat) (rs : List Report) : Nat :=
  (rs.filter (fun r => decide ((d - 30) * 1440 ≤ r.createdAt))).length

/-- `quarterly_reports.count()`: `created_at__gte=current_date - 90 days`
(rolling). -/
def quarterlyReportsCount (d : Nat) (rs : List Report) : Nat :=
  (rs.filter (fun r => decide ((d - 90) * 1440 ≤ r.createdAt))).length

/-- `yearly_reports.count()`: `created_at__gte=current_date - 365 days`
(rolling). -/
def yearlyReportsCount (d : Nat) (rs : List Report) : Nat :=
  (rs.filter (fun r => decide ((d - 365) * 1440 ≤ r.createdAt))).length

/-- Month of the calendar month preceding the one of day `d`. -/
def prevMonthOf (d : Nat) : Nat :=
  if civilMonth d = 1 then 12 else civilMonth d - 1

/-- Year of the calendar month preceding the one of day `d`. -/
def prevMonthYearOf (d : Nat) : Nat :=
  if civilMonth d = 1 then civilYear d - 1 else civilYear d

/-- Formalisation of the claim's words for a "last month" window: reports of
the calendar month preceding the current one (previous month + its year). -/
def lastMonthClaimWindowCount (d : Nat) (rs : List Report) : Nat :=
  rs.countP (fun r =>
    decide (civilMonth (createdDay r) = prevMonthOf d) &&
    decide (civilYear (createdDay r) = prevMonthYearOf d))

/-! ## Concrete stores used by the evaluations -/

/-- A report owned (primary and legacy) by user 2's owner, authored by
user 2, with no employee link. -/
def c1Report : Report :=
  { id := 10, content := "call notes", createdAt := 0, employeeId := none,
    officeId := none, primaryOwner := some 2, legacyOwner := some 2,
    authorId := 2, calltype := CallType.phone, vibe := 5 }

/-- Two users: user 1 owns owner 1, user 2 owns owner 2; the only report
belongs to user 2's owner. -/
def c1DB : DB :=
  { owners := [{ id := 1, userId := 1, lastContacted := none },
               { id := 2, userId := 2, lastContacted := none }],
    offices := [], employees := [], reports := [c1Report] }

/-- An office owned (M2M, primary and legacy) by user 2's owner. -/
def c2Office : Office :=
  { id := 5, owners := [2], primaryOwner := some 2, legacyOwner := some 2,
    lastContacted := none }

/-- An employee of user 2's office. -/
def c2Employee : Employee := { id := 20, officeId := 5, legacyOwner := some 2 }

/-- Two users: the only office and its employee belong to user 2's owner. -/
def c2DB : DB :=
  { owners := [{ id := 1, userId := 1, lastContacted := none },
               { id := 2, userId := 2, lastContacted := none }],
    offices := [c2Office], employees := [c2Employee], reports := [] }

/-- An office with owners 1 and 2 and primary owner 1 (the invariant
holds). -/
def c3Office : Office :=
  { id := 7, owners := [1, 2], primaryOwner := some 1, legacyOwner := none,
    lastContacted := none }

/-- An office whose deprecated single-owner field is owner 1 but whose
primary owner is owner 2 (both owners of the same user). -/
def c4Office : Office :=
  { id := 5, owners := [1, 2], primaryOwner := some 2, legacyOwner := some 1,
    lastContacted := none }

def c4DB : DB :=
  { owners := [{ id := 1, userId := 1, lastContacted := none },
               { id := 2, userId := 1, lastContacted := none }],
    offices := [c4Office], employees := [], reports := [] }

/-- A valid report submission with no office selection. -/
def c4FormData : FormData :=
  { callDate := none, content := "visit notes", vibe := 5,
    calltype := CallType.phone, office := none, additionalParties := "" }

/-- An office whose deprecated single-owner field is owner 2. -/
def c5Office : Office :=
  { id := 7, owners := [2], primaryOwner := some 2, legacyOwner := some 2,
    lastContacted := none }

def c5DB : DB :=
  { owners := [{ id := 1, userId := 1, lastContacted := none },
               { id := 2, userId := 1, lastContacted := none }],
    offices := [c5Office], employees := [], reports := [] }

/-- A submission from owner 1's context selecting office 7, which belongs to
owner 2; all other fields are valid. -/
def c5FormData : FormData :=
  { callDate := none, content := "notes", vibe := 5,
    calltype := CallType.email, office := some 7, additionalParties := "" }

/-- An office with sole owner 1; owner 7 is not an owner of it. -/
def c6Office : Office :=
  { id := 3, owners := [1], primaryOwner := some 1, legacyOwner := none,
    lastContacted := none }

/-- An office with sole owner 3, for the sole-owner removal scenario. -/
def c6SoleOffice : Office :=
  { id := 4, owners := [3], primaryOwner := some 3, legacyOwner := none,
    lastContacted := none }

/-- A report authored by user 1, attributed to owner 1, created at noon of
2024-01-31 (day 19753). -/
def c8Report : Report :=
  { id := 1, content := "c", createdAt := 19753 * 1440 + 720, employeeId := none,
    officeId := none, primaryOwner := some 1, legacyOwner := some 1,
    authorId := 1, calltype := CallType.phone, vibe := 5 }

def c8DB : DB :=
  { owners := [{ id := 1, userId := 1, lastContacted := none }],
    offices := [], employees := [], reports := [c8Report] }

/-- A report created on 2024-01-20 (day 19742), in the calendar month before
2024-02-15 (day 19768). -/
def c9Report : Report :=
  { id := 1, content := "c", createdAt := 19742 * 1440, employeeId := none,
    officeId := none, primaryOwner := some 1, legacyOwner := some 1,
    authorId := 1, calltype := CallType.phone, vibe := 5 }

/-- Owner 1 of user 1 with two reports (one fov, one phone) and owner 2 of
user 1 with none; a third report belongs to another user's owner. -/
def c7DB : DB :=
  { owners := [{ id := 1, userId := 1, lastContacted := none },
               { id := 2, userId := 1, lastContacted := none },
               { id := 3, userId := 2, lastContacted := none }],
    offices := [], employees := [],
    reports :=
      [{ id := 1, content := "a", createdAt := 10, employeeId := none,
         officeId := none, primaryOwner := some 1, legacyOwner := some 1,
         authorId := 1, calltype := CallType.fov, vibe := 5 },
       { id := 2, content := "b", createdAt := 20, employeeId := none,
         officeId := none, primaryOwner := some 1, legacyOwner := some 1,
         authorId := 1, calltype := CallType.phone, vibe := 5 },
       { id := 3, content := "cq", createdAt := 30, employeeId := none,
         officeId := none, primaryOwner := some 3, legacyOwner := some 3,
         authorId := 2, calltype := CallType.phone, vibe := 5 }] }

/-- The first scope owner of `c7DB` for user 1. -/
def c7OwnerA : Owner := { id := 1, userId := 1, lastContacted := none }

/-- The store after the committed `log_call_from_office` run on `c4DB`. -/
def c4CommittedDb : DB :=
  (outcomeDb (logCallFromOffice c4DB 9 5 c4FormData 19768)).getD c4DB

/-- The report persisted by the committed `log_call_from_office` run on
`c4DB`. -/
def c4CommittedReport : Report :=
  (outcomeReport (logCallFromOffice c4DB 9 5 c4FormData 19768)).getD
    { id := 0, content := "", createdAt := 0, employeeId := none, officeId := none,
      primaryOwner := none, legacyOwner := none, authorId := 0,
      calltype := CallType.other, vibe := 0 }

/-! ## Supporting lemmas -/

theorem sum_map_zero {α : Type} (l : List α) : (l.map (fun _ => (0 : Nat))).sum = 0 := by
  induction l with
  | nil => rfl
  | cons a t ih => simp [ih]

theorem sum_map_add {α : Type} (l : List α) (f g : α → Nat) :
    (l.map (fun x => f x + g x)).sum = (l.map f).sum + (l.map g).sum := by
  induction l with
  | nil => rfl
  | cons a t ih => simp [ih]; omega

theorem sum_map_comm {α β : Type} (as : List α) (bs : List β) (f : α → β → Nat) :
    (as.map (fun a => (bs.map (fun b => f a b)).sum)).sum
      = (bs.map (fun b => (as.map (fun a => f a b)).sum)).sum := by
  induction as with
  | nil => simp [sum_map_zero]
  | cons a t ih => simp [sum_map_add, ih]

theorem countP_ext {α : Type} (l : List α) (p q : α → Bool) (h : ∀ a, p a = q a) :
    l.countP p = l.countP q := by
  induction l with
  | nil => rfl
  | cons a t ih => simp [List.countP_cons, h, ih]

theorem countP_and_le {α : Type} (l : List α) (p q : α → Bool) :
    l.countP (fun a => p a && q a) ≤ l.countP p := by
  induction l with
  | nil => exact Nat.le_refl 0
  | cons a t ih =>
    by_cases hp : p a <;> by_cases hq : q a <;>
      simp [List.countP_cons, hp, hq] <;> omega

theorem countP_calltype_partition (rs : List Report) (p : Report → Bool) :
    (allCallTypes.map (fun ct => rs.countP (fun r => p r && decide (r.calltype = ct)))).sum
      = rs.countP p := by
  induction rs with
  | nil => rfl
  | cons a t ih =>
    simp only [List.countP_cons]
    rw [sum_map_add allCallTypes
        (fun ct => t.countP (fun r => p r && decide (r.calltype = ct)))
        (fun ct => if (p a && decide (a.calltype = ct)) = true then 1 else 0)]
    rw [ih]
    have hsingle :
        (allCallTypes.map (fun ct => if (p a && decide (a.calltype = ct)) = true then 1 else 0)).sum
          = if p a = true then 1 else 0 := by
      cases hpa : p a
      · simp [hpa, sum_map_zero]
      · cases a.calltype <;> simp [hpa, allCallTypes]
    rw [hsingle]

theorem find?_touch_office_list (l : List Office) (oid t : Nat) (office : Office)
    (h : l.find? (fun o => decide (o.id = oid)) = some office) :
    (l.map (fun o => if o.id = oid then { o with lastContacted := some t } else o)).find?
        (fun o => decide (o.id = oid))
      = some { office with lastContacted := some t } := by
  induction l with
  | nil => exact absurd h (by simp)
  | cons a l ih =>
    by_cases ha : a.id = oid
    · rw [List.find?_cons_of_pos _ (by simp [ha])] at h
      rw [List.map_cons, List.find?_cons_of_pos _ (by simp [ha])]
      rw [if_pos ha]
      injection h with h
      rw [h]
    · rw [List.find?_cons_of_neg _ (by simp [ha])] at h
      rw [List.map_cons, if_neg ha, List.find?_cons_of_neg _ (by simp [ha])]
      exact ih h

theorem find?_touch_owner_list (l : List Owner) (a t : Nat) (ow : Owner)
    (h : l.find? (fun o => decide (o.id = a)) = some ow) :
    (l.map (fun o => if o.id = a then { o with lastContacted := some t } else o)).find?
        (fun o => decide (o.id = a))
      = some { ow with lastContacted := some t } := by
  induction l with
  | nil => exact absurd h (by simp)
  | cons x l ih =>
    by_cases hx : x.id = a
    · rw [List.find?_cons_of_pos _ (by simp [hx])] at h
      rw [List.map_cons, List.find?_cons_of_pos _ (by simp [hx])]
      rw [if_pos hx]
      injection h with h
      rw [h]
    · rw [List.find?_cons_of_neg _ (by simp [hx])] at h
      rw [List.map_cons, if_neg hx, List.find?_cons_of_neg _ (by simp [hx])]
      exact ih h

theorem officeLastContacted_touchOffice_self (db : DB) (oid t : Nat) (office : Office)
    (h : findOffice db oid = some office) :
    officeLastContacted (touchOffice db oid t) oid = some t := by
  unfold officeLastContacted findOffice touchOffice
  unfold findOffice at h
  rw [find?_touch_office_list db.offices oid t office h]

theorem ownerLastContacted_touchOwner_self (db : DB) (a t : Nat) (ow : Owner)
    (h : findOwner db a = some ow) :
    ownerLastContacted (touchOwner db a t) a = some t := by
  unfold ownerLastContacted findOwner touchOwner
  unfold findOwner at h
  rw [find?_touch_owner_list db.owners a t ow h]

theorem ownerLastContacted_touch_chain (dbA : DB) (osel : Option Nat)
    (ownerId today : Nat) (ow : Owner) (h : findOwner dbA ownerId = some ow) :
    ownerLastContacted
        (touchOwner
          (match osel with
           | some oid => touchOffice dbA oid today
           | none => dbA) ownerId today) ownerId
      = some today := by
  cases osel <;> exact ownerLastContacted_touchOwner_self _ _ _ ow h

/-! ## Claim theorems -/

/-- C1: the claim says every dashboard/detail read returns only entities in
the requesting user's scope, and in particular that the reports returned are
a subset of the requester's report scope.  `report_dashboard` performs a bare
`get_object_or_404(Report, pk=report_id)` with no user filter: at the
concrete store `c1DB`, user 1's request for report 10 returns the report even
though it is outside user 1's report scope (its primary and legacy owner
belong to user 2 and it has no employee link). -/
theorem c1_report_dashboard_returns_out_of_scope_report :
    reportDashboard c1DB 10 = some c1Report ∧
    reportInScopeB c1DB 1 c1Report = false := by
  decide

/-- C2: the claim says an edit/delete on an Office or Employee whose target is
out of the requester's scope returns Unauthorized and performs no mutation.
`employee_delete` and `office_delete` re-verify nothing: at the concrete
store `c2DB`, employee 20 and office 5 are outside user 1's scope, yet the
delete operations remove them from the store (and `employee_delete` redirects
to the office dashboard, not to a safe default). -/
theorem c2_delete_views_mutate_out_of_scope :
    employeeInScopeB c2DB 1 c2Employee = false ∧
    officeInScopeB c2DB 1 c2Office = false ∧
    (employeeDelete c2DB 20).map (fun p => (p.1.employees, p.2)) = some ([], 5) ∧
    (officeDelete c2DB 5).map (fun db => (db.offices, db.employees)) = some ([], []) := by
  decide

/-- C3: the claim says that after every create-office, add-owner and
remove-owner operation, a non-empty owners set contains the primary owner.
The removal step of `owner_edit` (views.py 308-316) violates this: on
`c3Office` (owners 1 and 2, primary owner 1, invariant holds), deselecting
the office for owner 1 removes owner 1 and sets `primary_owner = None`
although owner 2 remains, leaving a non-empty owners set with no primary
owner. -/
theorem c3_owner_edit_breaks_primary_owner_invariant :
    officeInvariantB c3Office = true ∧
    (ownerEditRemoveAssoc c3Office 1).owners = [2] ∧
    (ownerEditRemoveAssoc c3Office 1).primaryOwner = none ∧
    officeInvariantB (ownerEditRemoveAssoc c3Office 1) = false := by
  decide

/-- C4 counterexample: the claim says a successful commit from an Office
context sets `last_contacted` on the Office's PRIMARY owner.  On `c4DB`
(office 5 has primary owner 2 but deprecated single-owner field 1), a
committed `log_call_from_office` sets `last_contacted` on owner 1 (the legacy
field) and leaves primary owner 2 untouched. -/
theorem c4_log_call_from_office_skips_primary_owner :
    c4Office.primaryOwner = some 2 ∧
    c4Office.legacyOwner = some 1 ∧
    (outcomeDb (logCallFromOffice c4DB 9 5 c4FormData 19768)).map
      (fun db => (ownerLastContacted db 2, ownerLastContacted db 1,
                  officeLastContacted db 5))
      = some (none, some 19768, some 19768) := by
  decide

/-- C5 counterexample: the claim says a submission from Owner context whose
selected Office belongs to a different Owner is not rejected but persisted
with `office = None`.  On `c5DB`, owner 1's submission selecting office 7
(whose single-owner field is owner 2) is otherwise valid, yet the outcome is
Draft (form invalid — the office is outside the form's owner-filtered
queryset): nothing is persisted. -/
theorem c5_out_of_owner_office_is_rejected_not_corrected :
    formValidBase c5FormData = true ∧
    c5FormData.office = some 7 ∧
    (findOffice c5DB 7).map Office.legacyOwner = some (some 2) ∧
    logCallFromOwner c5DB 1 1 c5FormData 100 = LogOutcome.draft := by
  decide

/-- C6 counterexample: the claim says `remove_owner_from_office` fails with
`NotAnOwner` when the owner is not a member of `office.owners`.  The source
method raises nothing on any path: removing non-member 7 from `c6Office`
returns successfully with the office unchanged instead of failing. -/
theorem c6_remove_nonmember_does_not_fail :
    Office.isOwner c6Office 7 = false ∧
    Office.removeOwnerE c6Office 7 = Except.ok c6Office ∧
    Office.removeOwnerE c6Office 7 ≠ Except.error RemoveOwnerError.notAnOwner :=
  ⟨by decide, rfl, fun h => Except.noConfusion h⟩

/-- C8 counterexample: the claim says the date-range filter keeps every
report with `created_at <= end_date`, "including reports created on the end
date itself".  Django coerces the `date` bound to the midnight `datetime`:
on `c8DB`, the report created at noon of the end date 2024-01-31 (day 19753)
is excluded by the filter 2024-01-01 .. 2024-01-31. -/
theorem c8_report_on_end_date_is_dropped :
    activityReports c8DB 1 (some 19723) (some 19753) = [] ∧
    c8DB.reports = [c8Report] ∧
    c8Report.authorId = 1 ∧
    createdDay c8Report = 19753 ∧
    19723 ≤ createdDay c8Report := by
  decide

/-- C9 counterexample: the claim says the home dashboard's "last month" count
selects by calendar month + year match (i.e. the previous calendar month).
The view filters on `created_at__month=current_date.month`: at current date
2024-02-15 (day 19768), a report created 2024-01-20 — in the previous
calendar month — is NOT counted (the code's count is 0 where the claimed
window counts 1). -/
theorem c9_last_month_count_is_current_month :
    lastMonthNumberReportsCount 19768 [c9Report] = 0 ∧
    lastMonthClaimWindowCount 19768 [c9Report] = 1 ∧
    civilMonth 19768 = 2 ∧ civilYear 19768 = 2024 ∧
    civilMonth (createdDay c9Report) = 1 ∧ civilYear (createdDay c9Report) = 2024 := by
  decide

/-- C5 (amended): a Report submission from Owner context whose selected
Office does not belong to that Owner (by the deprecated single-owner field
the form filters on) fails the `office` field's queryset validation and the
workflow returns to Draft: nothing is persisted, rather than a Report being
stored with `office = None`. -/
theorem c5_out_of_owner_office_rejected (db : DB) (u ownerId oid today : Nat)
    (fd : FormData) (owner : Owner) (office : Office)
    (ho : findOwner db ownerId = some owner)
    (hsel : fd.office = some oid)
    (hoff : findOffice db oid = some office)
    (hnot : office.legacyOwner ≠ some ownerId) :
    logCallFromOwner db u ownerId fd today = LogOutcome.draft := by
  have hq : officeInOwnerQueryset db ownerId oid = false := by
    unfold officeInOwnerQueryset
    rw [hoff]
    simp [hnot]
  unfold logCallFromOwner
  rw [ho]
  simp [hsel, hq]

/-- Witness for `c5_out_of_owner_office_rejected` at the concrete store. -/
theorem c5_out_of_owner_office_rejected_witness :
    logCallFromOwner c5DB 1 1 c5FormData 100 = LogOutcome.draft :=
  c5_out_of_owner_office_rejected c5DB 1 1 7 100 c5FormData
    { id := 1, userId := 1, lastContacted := none } c5Office
    (by decide) rfl (by decide) (by decide)

/-- C6 (amended): `Office.remove_owner(owner)` raises no `NotAnOwner` error;
when `is_owner` is false (membership of the `owners` set, falling back to the
deprecated single-owner field when `owners` is empty) it silently leaves the
office unchanged.  On success it removes the owner from `owners`; if the
removed owner was the primary owner, the primary is reassigned to the first
remaining owner — a member of the remaining set — or cleared to none when no
owner remains (so removing a sole owner leaves `primary_owner = None` and
`owners = {}`); a non-primary removal leaves `primary_owner` unchanged. -/
theorem c6_remove_owner_behaviour (ofc : Office) (oid : Nat) :
    (ofc.isOwner oid = false → ofc.removeOwner oid = ofc) ∧
    (ofc.isOwner oid = true →
      (ofc.removeOwner oid).owners = ofc.owners.filter (fun x => x != oid) ∧
      (ofc.primaryOwner = some oid →
        (ofc.owners.filter (fun x => x != oid) = [] →
          (ofc.removeOwner oid).primaryOwner = none) ∧
        (∀ p l, ofc.owners.filter (fun x => x != oid) = p :: l →
          (ofc.removeOwner oid).primaryOwner = some p ∧
          p ∈ (ofc.removeOwner oid).owners)) ∧
      (ofc.primaryOwner ≠ some oid →
        (ofc.removeOwner oid).primaryOwner = ofc.primaryOwner)) := by
  constructor
  · intro h
    simp [Office.removeOwner, h]
  · intro h
    refine ⟨?_, ?_, ?_⟩
    · by_cases hp : ofc.primaryOwner = some oid
      · simp only [Office.removeOwner, h, if_true, hp, if_pos]
        cases hf : ofc.owners.filter (fun x => x != oid) <;> simp [hf]
      · simp [Office.removeOwner, h, hp]
    · intro hp
      constructor
      · intro hnil
        simp [Office.removeOwner, h, hp, hnil]
      · intro p l hf
        simp [Office.removeOwner, h, hp, hf]
    · intro hp
      simp [Office.removeOwner, h, hp]

/-- Witness for `c6_remove_owner_behaviour`: removing the sole owner of
`c6SoleOffice` empties `owners` and clears `primary_owner`. -/
theorem c6_remove_owner_behaviour_witness :
    (Office.removeOwner c6SoleOffice 3).owners = [] ∧
    (Office.removeOwner c6SoleOffice 3).primaryOwner = none := by
  have h := (c6_remove_owner_behaviour c6SoleOffice 3).2 (by decide)
  exact ⟨h.1.trans (by decide), (h.2.1 (by decide)).1 (by decide)⟩

/-- C7: the activity matrix has one row per owner of the requesting user (in
scope order), including a zero-filled row for an owner with zero reports;
each owner's row total equals that owner's report count in the filtered set;
and the grand total equals the sum of the row totals and the sum of the
per-calltype column totals. -/
theorem c7_activity_matrix_totals (db : DB) (u : Nat) (sd ed : Option Nat) :
    ((activityMatrix db u sd ed).map Prod.fst = (userOwners db u).map Owner.id) ∧
    (∀ o, o ∈ userOwners db u →
      (o.id, matrixRow (activityReports db u sd ed) o.id) ∈ activityMatrix db u sd ed ∧
      rowTotal (activityReports db u sd ed) o.id
        = (activityReports db u sd ed).countP (fun r => decide (r.legacyOwner = some o.id)) ∧
      ((activityReports db u sd ed).countP (fun r => decide (r.legacyOwner = some o.id)) = 0 →
        matrixRow (activityReports db u sd ed) o.id = [0, 0, 0, 0, 0])) ∧
    grandTotal db u sd ed
      = ((userOwners db u).map (fun o => rowTotal (activityReports db u sd ed) o.id)).sum ∧
    grandTotal db u sd ed
      = (allCallTypes.map (fun ct =>
          colTotal (activityReports db u sd ed) (userOwners db u) ct)).sum := by
  refine ⟨?_, ?_, rfl, ?_⟩
  · simp [activityMatrix, List.map_map, Function.comp]
  · intro o ho
    refine ⟨List.mem_map_of_mem _ ho, countP_calltype_partition _ _, ?_⟩
    intro h0
    have hc : ∀ ct, matrixCell (activityReports db u sd ed) o.id ct = 0 := by
      intro ct
      have hle := countP_and_le (activityReports db u sd ed)
        (fun r => decide (r.legacyOwner = some o.id)) (fun r => decide (r.calltype = ct))
      rw [h0] at hle
      exact Nat.le_zero.mp hle
    simp [matrixRow, allCallTypes, hc]
  · unfold grandTotal rowTotal matrixRow colTotal
    exact sum_map_comm (userOwners db u) allCallTypes
      (fun o ct => matrixCell (activityReports db u sd ed) o.id ct)

/-- Witness for `c7_activity_matrix_totals` at the concrete store `c7DB`. -/
theorem c7_activity_matrix_totals_witness :
    rowTotal (activityReports c7DB 1 none none) c7OwnerA.id
      = (activityReports c7DB 1 none none).countP
          (fun r => decide (r.legacyOwner = some c7OwnerA.id)) :=
  ((c7_activity_matrix_totals c7DB 1 none none).2.1 c7OwnerA (by decide)).2.1

/-- C8 (amended): the date-range filter of `activity_dashboard` restricts the
author-filtered report set with bounds taken at the midnight of the supplied
dates — `created_at >= start_date 00:00` and `created_at <= end_date 00:00` —
so a report with a timestamp later on the end date is excluded; the matrix is
displayed exactly when at least one bound is supplied. -/
theorem c8_date_filter_semantics (db : DB) (u : Nat) (sd ed : Option Nat) (r : Report) :
    (r ∈ activityReports db u sd ed ↔
      r ∈ db.reports ∧ r.authorId = u ∧
      (∀ s, sd = some s → s * 1440 ≤ r.createdAt) ∧
      (∀ e, ed = some e → r.createdAt ≤ e * 1440)) ∧
    activityShowTable sd ed = (sd.isSome || ed.isSome) := by
  constructor
  · unfold activityReports
    cases sd <;> cases ed <;>
      simp [List.mem_filter] <;> tauto
  · unfold activityShowTable
    cases h : (sd.isSome || ed.isSome) <;> simp [h]

/-- Witness for `c8_date_filter_semantics`: the noon-of-end-date report of
`c8DB` is not in the filtered set. -/
theorem c8_date_filter_semantics_witness :
    c8Report ∉ activityReports c8DB 1 (some 19723) (some 19753) :=
  fun hmem =>
    absurd
      (((c8_date_filter_semantics c8DB 1 (some 19723) (some 19753) c8Report).1.mp
          hmem).2.2.2 19753 rfl)
      (by decide)

/-- C9 (amended): the home-dashboard counts are computed as: "today" = exact
calendar-date match; the this-week/last-week number counts = ISO week number
(of the current date, resp. of current date minus 7 days) together with
calendar-year match; the single calendar-month count filters the CURRENT
month + year (it is exposed under the last-month context key, and no
previous-calendar-month window exists); separate rolling 7- and 30-day counts
are exposed as the weekly/monthly counts; the quarter/year counts are rolling
lookbacks of exactly 90/365 days from the current date, not
calendar-aligned. -/
theorem c9_home_window_semantics (d : Nat) (rs : List Report) :
    todayReportsCount d rs = rs.countP (fun r => decide (createdDay r = d)) ∧
    thisWeekNumberReportsCount d rs
      = rs.countP (fun r => decide (isoWeek (createdDay r) = isoWeek d ∧
          civilYear (createdDay r) = civilYear d)) ∧
    lastWeekNumberReportsCount d rs
      = rs.countP (fun r => decide (isoWeek (createdDay r) = isoWeek (d - 7) ∧
          civilYear (createdDay r) = civilYear d)) ∧
    lastMonthNumberReportsCount d rs
      = rs.countP (fun r => decide (civilMonth (createdDay r) = civilMonth d ∧
          civilYear (createdDay r) = civilYear d)) ∧
    weeklyReportsCount d rs = rs.countP (fun r => decide (d - 7 ≤ createdDay r)) ∧
    monthlyReportsCount d rs = rs.countP (fun r => decide (d - 30 ≤ createdDay r)) ∧
    quarterlyReportsCount d rs = rs.countP (fun r => decide (d - 90 ≤ createdDay r)) ∧
    yearlyReportsCount d rs = rs.countP (fun r => decide (d - 365 ≤ createdDay r)) := by
  have hroll : ∀ n : Nat, (rs.filter (fun r => decide ((d - n) * 1440 ≤ r.createdAt))).length
      = rs.countP (fun r => decide (d - n ≤ createdDay r)) := by
    intro n
    rw [← List.countP_eq_length_filter]
    apply countP_ext
    intro r
    rw [decide_eq_decide]
    unfold createdDay
    exact (Nat.le_div_iff_mul_le (by omega)).symm
  refine ⟨?_, ?_, ?_, ?_, hroll 7, hroll 30, hroll 90, hroll 365⟩
  · rw [todayReportsCount, ← List.countP_eq_length_filter]
  · rw [thisWeekNumberReportsCount, ← List.countP_eq_length_filter]
    apply countP_ext
    intro r
    simp
  · rw [lastWeekNumberReportsCount, ← List.countP_eq_length_filter]
    apply countP_ext
    intro r
    simp
  · rw [lastMonthNumberReportsCount, ← List.countP_eq_length_filter]
    apply countP_ext
    intro r
    simp

/-- Witness for `c9_home_window_semantics` at the concrete current date
2024-02-15 with the 2024-01-20 report. -/
theorem c9_home_window_semantics_witness :
    lastMonthNumberReportsCount 19768 [c9Report]
      = [c9Report].countP (fun r => decide (civilMonth (createdDay r) = civilMonth 19768 ∧
          civilYear (createdDay r) = civilYear 19768)) :=
  (c9_home_window_semantics 19768 [c9Report]).2.2.2.1

/-- C4 (amended): every committed log-call sets `last_contacted = today` on
the linked Office (when one exists), and on the report's legacy `owner` — the
Employee's deprecated single-owner field when entering from an Employee, the
Office's deprecated single-owner field when entering from an Office (not the
Office's `primary_owner`), the Owner itself when entering from an Owner — but
only when that legacy owner is not `None`: with a `None` legacy owner the
owner table is untouched. -/
theorem c4_last_contacted_targets (db : DB) (u today : Nat) (fd : FormData) :
    (∀ eid emp office db' r,
      findEmployee db eid = some emp →
      findOffice db emp.officeId = some office →
      logCallFromEmployee db u eid fd today = LogOutcome.committed db' r →
      officeLastContacted db' emp.officeId = some today ∧
      (∀ a ow, emp.legacyOwner = some a → findOwner db a = some ow →
        ownerLastContacted db' a = some today) ∧
      (emp.legacyOwner = none → db'.owners = db.owners)) ∧
    (∀ oid office db' r,
      findOffice db oid = some office →
      logCallFromOffice db u oid fd today = LogOutcome.committed db' r →
      officeLastContacted db' oid = some today ∧
      (∀ a ow, office.legacyOwner = some a → findOwner db a = some ow →
        ownerLastContacted db' a = some today) ∧
      (office.legacyOwner = none → db'.owners = db.owners)) ∧
    (∀ ownerId ow db' r,
      findOwner db ownerId = some ow →
      logCallFromOwner db u ownerId fd today = LogOutcome.committed db' r →
      ownerLastContacted db' ownerId = some today ∧
      (∀ oid office, r.officeId = some oid → findOffice db oid = some office →
        officeLastContacted db' oid = some today)) := by
  refine ⟨?_, ?_, ?_⟩
  · intro eid emp office db' r hemp hoff hrun
    unfold logCallFromEmployee at hrun
    rw [hemp] at hrun
    dsimp only at hrun
    by_cases hv : (formValidBase fd && fd.office.isNone) = true
    · rw [if_pos hv] at hrun
      injection hrun with h1 h2
      subst h1
      cases hl : emp.legacyOwner with
      | none =>
        dsimp only
        exact ⟨officeLastContacted_touchOffice_self _ _ _ office hoff,
               fun a ow ha _ => absurd ha (by simp),
               fun _ => rfl⟩
      | some a =>
        dsimp only
        refine ⟨officeLastContacted_touchOffice_self _ _ _ office hoff, ?_, ?_⟩
        · intro a' ow ha' how
          have haa : a = a' := by injection ha'
          subst haa
          exact ownerLastContacted_touchOwner_self _ _ _ ow how
        · intro hnone
          exact absurd hnone (by simp)
    · rw [if_neg hv] at hrun
      exact absurd hrun (by simp)
  · intro oid office db' r hoff hrun
    unfold logCallFromOffice at hrun
    rw [hoff] at hrun
    dsimp only at hrun
    by_cases hv : (formValidBase fd && fd.office.isNone) = true
    · rw [if_pos hv] at hrun
      injection hrun with h1 h2
      subst h1
      cases hl : office.legacyOwner with
      | none =>
        dsimp only
        exact ⟨officeLastContacted_touchOffice_self _ _ _ office hoff,
               fun a ow ha _ => absurd ha (by simp),
               fun _ => rfl⟩
      | some a =>
        dsimp only
        refine ⟨officeLastContacted_touchOffice_self _ _ _ office hoff, ?_, ?_⟩
        · intro a' ow ha' how
          have haa : a = a' := by injection ha'
          subst haa
          exact ownerLastContacted_touchOwner_self _ _ _ ow how
        · intro hnone
          exact absurd hnone (by simp)
    · rw [if_neg hv] at hrun
      exact absurd hrun (by simp)
  · intro ownerId ow db' r ho hrun
    unfold logCallFromOwner at hrun
    rw [ho] at hrun
    dsimp only at hrun
    by_cases hv : (formValidBase fd &&
        (match fd.office with
         | none => true
         | some oid => officeInOwnerQueryset db ownerId oid)) = true
    · rw [if_pos hv] at hrun
      injection hrun with h1 h2
      subst h1
      subst h2
      constructor
      · exact ownerLastContacted_touch_chain _ _ _ _ ow ho
      · intro oid2 office2 hro hfo
        rw [hro]
        dsimp only
        exact officeLastContacted_touchOffice_self _ _ _ office2 hfo
    · rw [if_neg hv] at hrun
      exact absurd hrun (by simp)

/-- Witness for `c4_last_contacted_targets` at the concrete store `c4DB`:
after the committed `log_call_from_office` run, office 5 and legacy owner 1
carry today's date. -/
theorem c4_last_contacted_targets_witness :
    officeLastContacted c4CommittedDb 5 = some 19768 ∧
    ownerLastContacted c4CommittedDb 1 = some 19768 := by
  have hrun : logCallFromOffice c4DB 9 5 c4FormData 19768
      = LogOutcome.committed c4CommittedDb c4CommittedReport := by decide
  have h := (c4_last_contacted_targets c4DB 9 19768 c4FormData).2.1 5 c4Office
    c4CommittedDb c4CommittedReport (by decide) hrun
  exact ⟨h.1, h.2.1 1 { id := 1, userId := 1, lastContacted := none }
    (by decide) (by decide)⟩

/-- C10: `ReportForm.save` does not persist the typed content verbatim: when
a call date is provided it prepends the `"CALL DATE: <date>"` header block,
when the additional-parties field is non-blank it appends the
`"ADDITIONAL PARTIES INVOLVED"` section with the stripped text, and with
either field set the stored content is strictly longer than the typed
content. -/
theorem c10_report_content_augmented (content : String) (cd : Option Nat) (ap : String)
    (h : cd.isSome = true ∨ (ap ≠ "" ∧ ap.trim ≠ "")) :
    (∀ z, cd = some z →
      ∃ t, reportFormSaveContent content cd ap = callDateHeader z ++ t) ∧
    ((ap ≠ "" ∧ ap.trim ≠ "") →
      ∃ s, reportFormSaveContent content cd ap = s ++ (partiesSeparator ++ ap.trim)) ∧
    content.length < (reportFormSaveContent content cd ap).length := by
  have hhdr : ∀ z, 0 < (callDateHeader z).length := by
    intro z
    unfold callDateHeader
    rw [String.length_append, String.length_append, String.length_append,
        String.length_append]
    have h11 : ("CALL DATE: ").length = 11 := rfl
    omega
  have hsep : 0 < partiesSeparator.length := by
    unfold partiesSeparator
    rw [String.length_append, String.length_append, String.length_append,
        String.length_append]
    have h2 : ("\n\n").length = 2 := rfl
    omega
  refine ⟨?_, ?_, ?_⟩
  · intro z hz
    subst hz
    unfold reportFormSaveContent
    dsimp only
    by_cases hap : (ap ≠ "" ∧ ap.trim ≠ "")
    · rw [if_pos hap]
      exact ⟨content ++ partiesSeparator ++ ap.trim, by simp [String.append_assoc]⟩
    · rw [if_neg hap]
      exact ⟨content, rfl⟩
  · intro hap
    unfold reportFormSaveContent
    cases cd <;> dsimp only <;> rw [if_pos hap] <;>
      exact ⟨_, String.append_assoc _ _ _⟩
  · unfold reportFormSaveContent
    cases cd with
    | some z =>
      dsimp only
      by_cases hap : (ap ≠ "" ∧ ap.trim ≠ "")
      · rw [if_pos hap]
        rw [String.length_append, String.length_append, String.length_append]
        have := hhdr z
        omega
      · rw [if_neg hap]
        rw [String.length_append]
        have := hhdr z
        omega
    | none =>
      dsimp only
      by_cases hap : (ap ≠ "" ∧ ap.trim ≠ "")
      · rw [if_pos hap]
        rw [String.length_append, String.length_append]
        omega
      · rw [if_neg hap]
        cases h with
        | inl h1 => exact absurd h1 (by simp)
        | inr h2 => exact absurd h2 hap

/-- Witness for `c10_report_content_augmented`: a concrete submission with a
call date and an additional party yields strictly longer stored content. -/
theorem c10_report_content_augmented_witness :
    ("hi").length < (reportFormSaveContent "hi" (some 19742) "Bob").length :=
  (c10_report_content_augmented "hi" (some 19742) "Bob" (Or.inl rfl)).2.2

end Devops
